import Mathlib

/-!
Shallow embedding of the k-eval evaluation engine
(`k_eval/evaluation/application/runner.py`, `k_eval/cli/output/aggregator.py`,
`k_eval/agent/infrastructure/errors.py` and the domain value objects they use),
together with theorems settling the specification claims about it.

Conventions of the embedding:
* Python `str` becomes `String`, `int` becomes `Nat` (all relevant integers are
  non-negative: repetition indices, attempt counters, backoff seconds computed
  from non-negative integer config fields), judge metric values become `Nat`
  and are cast to `ℚ` where the source casts them to `float`.
* Observer calls and capability invocations become entries of an `Event` trace.
* The nondeterminism of concurrent scheduling is exposed as explicit
  parameters (the order in which results/failures are collected), constrained
  in theorems by permutation hypotheses.
-/

namespace KEval

/-- Sample — `k_eval` dataset value object: one question/answer pair.
Field `sample_idx` is the string sample identifier used by the runner. -/
structure Sample where
  sample_idx : String
  question : String
  answer : String
  deriving DecidableEq

/-- ToolCall — one MCP tool invocation captured from the agent stream
(`k_eval/agent/domain/turn.py`).  The `tool_input` dict and the float
`duration_ms` payload fields play no role in any control flow and are elided. -/
structure ToolCall where
  tool_use_id : String
  tool_name : String
  tool_result : Option String
  tool_error : Bool
  deriving DecidableEq

/-- Role of an agent turn (`Literal["assistant", "tool_use"]`). -/
inductive Role where
  | assistant
  | tool_use
  deriving DecidableEq

/-- AgentTurn — one conversational turn (`k_eval/agent/domain/turn.py`). -/
structure AgentTurn where
  turn_idx : Nat
  role : Role
  text : Option String
  tool_calls : List ToolCall
  deriving DecidableEq

/-- AgentResult — outcome of one agent invocation
(`k_eval/agent/domain/result.py`).  The float cost/duration payload fields are
elided: no claim and no control flow of the runner depends on them. -/
structure AgentResult where
  response : String
  num_turns : Nat
  turns : List AgentTurn
  deriving DecidableEq

/-- JudgeResult — structured output of one judge invocation
(`k_eval/judge/domain/score.py`); the three metrics are integers in 1..5. -/
structure JudgeResult where
  factual_adherence : Nat
  factual_adherence_reasoning : String
  completeness : Nat
  completeness_reasoning : String
  helpfulness_and_clarity : Nat
  helpfulness_and_clarity_reasoning : String
  unverified_claims : List String
  deriving DecidableEq

/-- ConditionConfig — one named evaluation condition
(`k_eval/config/domain/condition.py`).  The `mcp_servers` payload is elided:
it is forwarded verbatim to the agent factory and never inspected. -/
structure ConditionConfig where
  system_prompt : String
  require_mcp_tool_use : Bool
  require_mcp_tool_success : Bool
  deriving DecidableEq

/-- RetryConfig (`config/domain/execution.py`): validated `max_attempts ≥ 1`,
`initial_backoff_seconds ≥ 0`, `backoff_multiplier ≥ 1`; all integer fields. -/
structure RetryConfig where
  max_attempts : Nat
  initial_backoff_seconds : Nat
  backoff_multiplier : Nat
  deriving DecidableEq

/-- ExecutionConfig (`config/domain/execution.py`). -/
structure ExecutionConfig where
  num_repetitions : Nat
  max_concurrent : Nat
  retry : RetryConfig
  deriving DecidableEq

/-- EvaluationRun — record of one completed trial
(`k_eval/evaluation/domain/run.py` as constructed by the runner at
`runner.py:221-230`). -/
structure EvaluationRun where
  run_id : String
  sample : Sample
  condition : String
  repetition_index : Nat
  agent_result : AgentResult
  judge_result : JudgeResult
  deriving DecidableEq

/-- RunSummary (`k_eval/evaluation/domain/summary.py`). -/
structure RunSummary where
  run_id : String
  dataset_sha256 : String
  config_name : String
  runs : List EvaluationRun
  deriving DecidableEq

/-! ### Python digit-string conversion used at `runner.py:179-181` -/

/-- Model of Python `str.isdigit()` restricted to ASCII decimal-digit strings:
true iff the string is non-empty and every character is a decimal digit.
(Python's `isdigit` additionally accepts some non-ASCII Unicode digit
characters; sample identifiers are modelled as ASCII.) -/
def py_isdigit (s : String) : Bool :=
  !s.data.isEmpty && s.data.all Char.isDigit

/-- Model of Python `int(s)` on a decimal-digit string: the decimal value. -/
def py_int (s : String) : Nat :=
  s.data.foldl (fun n c => 10 * n + (c.toNat - 48)) 0

/-- The sample index reported in the MCP gate observer events and errors:
`int(sample.sample_idx) if sample.sample_idx.isdigit() else 0`
(`runner.py:179-181`, `186-188`, `199-201`, `206-208`). -/
def reportedSampleIdx (s : String) : Nat :=
  if py_isdigit s then py_int s else 0

/-! ### Error taxonomy (`core/errors.py`, `agent/infrastructure/errors.py`) -/

/-- Single-quote character, used in the error message f-strings. -/
def sq : String := String.singleton (Char.ofNat 39)

/-- Message of `McpToolUseAbsentError` (`agent/infrastructure/errors.py:22-31`). -/
def mcpToolUseAbsentMessage (condition : String) : String :=
  "Failed to verify MCP tool use: condition " ++ sq ++ condition ++ sq ++
    " requires at least one MCP tool call but agent called none"

/-- Message of `McpToolSuccessAbsentError` (`agent/infrastructure/errors.py:33-41`). -/
def mcpToolSuccessAbsentMessage (condition : String) : String :=
  "Failed to verify MCP tool success: condition " ++ sq ++ condition ++ sq ++
    " requires at least one successful MCP tool call but all calls errored"

/-- KEvalError — the `KEvalError` exception hierarchy relevant to the runner:
the two domain-gate errors (constructed with `retriable=True`) and a generic
capability error carrying its own retriable flag (models
`AgentInvocationError` and every other `KEvalError` subclass raised by the
agent/judge capabilities). -/
inductive KEvalError where
  | mcpToolUseAbsent (condition : String) (sample_idx : Nat)
  | mcpToolSuccessAbsent (condition : String) (sample_idx : Nat)
  | capability (message : String) (retriable : Bool)
  deriving DecidableEq

/-- The `retriable` attribute set in each error's constructor: the two MCP
gate errors pass `retriable=True` to `KEvalError.__init__`. -/
def KEvalError.retriable : KEvalError → Bool
  | .mcpToolUseAbsent _ _ => true
  | .mcpToolSuccessAbsent _ _ => true
  | .capability _ r => r

/-- Model of `str(exc)`: the message passed to `KEvalError.__init__`. -/
def KEvalError.message : KEvalError → String
  | .mcpToolUseAbsent c _ => mcpToolUseAbsentMessage c
  | .mcpToolSuccessAbsent c _ => mcpToolSuccessAbsentMessage c
  | .capability m _ => m

/-! ### Observer / execution trace events -/

/-- Event — one entry of the execution trace of a trial.  The
`sample_condition_*`, `evaluation_progress` and the two `mcp_*` constructors
are the observer calls made by `_run_one_triple`; `judge_invoked` marks that
the judge capability was called (`judge_factory.create` + `judge.score`,
`runner.py:211-219`); `sleep` marks `await asyncio.sleep(backoff)`
(`runner.py:277`).  `progressMark` records the lock-protected
increment-and-notify block (`runner.py:238-245` and `257-264`); the concrete
`(completed, total)` value it emits is global state, modelled separately by
`progressEmissions`. -/
inductive Event where
  | sample_condition_started (sample_idx : String) (condition : String)
      (repetition_index : Nat)
  | mcp_tool_use_absent (condition : String) (sample_idx : Nat)
      (repetition_index : Nat)
  | mcp_tool_success_absent (condition : String) (sample_idx : Nat)
      (repetition_index : Nat)
  | judge_invoked (condition : String) (sample_idx : String)
  | sample_condition_completed (sample_idx : String) (condition : String)
      (repetition_index : Nat)
  | sample_condition_failed (sample_idx : String) (condition : String)
      (repetition_index : Nat) (reason : String)
  | sample_condition_retry (sample_idx : String) (condition : String)
      (repetition_index : Nat) (attempt : Nat) (reason : String)
      (backoff_seconds : Nat)
  | progressMark (condition : String)
  | sleep (backoff_seconds : Nat)
  deriving DecidableEq

/-- Outcome of one capability invocation: the value, or a raised `KEvalError`. -/
inductive CapOutcome (α : Type) where
  | ok (a : α)
  | err (e : KEvalError)
  deriving DecidableEq

/-! ### One pipeline attempt (`runner.py:160-230`, the `try` body) -/

/-- The flattened tool-call list (`runner.py:169-174`):
`[tc for turn in agent_result.turns if turn.role == "tool_use" for tc in turn.tool_calls]`. -/
def all_tool_calls (ar : AgentResult) : List ToolCall :=
  (ar.turns.filter (fun t => t.role = Role.tool_use)).flatMap (fun t => t.tool_calls)

/-- One attempt of the trial pipeline — the body of the `try` block at
`runner.py:160-230` up to (but not including) the success bookkeeping:
invoke the agent, apply the tool-use gate, apply the tool-success gate,
invoke the judge, assemble the `EvaluationRun`.  `ag`/`jd` are the outcomes
the external agent/judge capabilities produce on this attempt.  Returns the
emitted events and either the assembled `EvaluationRun` or the raised
`KEvalError`. -/
def attemptOnce (ag : CapOutcome AgentResult) (jd : CapOutcome JudgeResult)
    (run_id : String) (sample : Sample) (condition_name : String)
    (condition : ConditionConfig) (repetition_index : Nat) :
    List Event × Except KEvalError EvaluationRun :=
  match ag with
  | .err e => ([], .error e)
  | .ok agent_result =>
    let atc := all_tool_calls agent_result
    if condition.require_mcp_tool_use && atc.isEmpty then
      ([Event.mcp_tool_use_absent condition_name
          (reportedSampleIdx sample.sample_idx) repetition_index],
       .error (KEvalError.mcpToolUseAbsent condition_name
          (reportedSampleIdx sample.sample_idx)))
    else if condition.require_mcp_tool_success && !atc.isEmpty
        && atc.all (fun tc => tc.tool_error) then
      ([Event.mcp_tool_success_absent condition_name
          (reportedSampleIdx sample.sample_idx) repetition_index],
       .error (KEvalError.mcpToolSuccessAbsent condition_name
          (reportedSampleIdx sample.sample_idx)))
    else
      match jd with
      | .err e => ([Event.judge_invoked condition_name sample.sample_idx], .error e)
      | .ok judge_result =>
        ([Event.judge_invoked condition_name sample.sample_idx],
         .ok { run_id := run_id
               sample := sample
               condition := condition_name
               repetition_index := repetition_index
               agent_result := agent_result
               judge_result := judge_result })

/-! ### The retry loop of one trial (`_run_one_triple`, `runner.py:126-278`) -/

/-- Triple — one (sample, condition, repetition) execution unit, as enumerated
by the nested loops at `runner.py:84-88`. -/
structure Triple where
  sample : Sample
  condition_name : String
  condition : ConditionConfig
  repetition_index : Nat
  deriving DecidableEq

/-- TripleEnv — the environment of one trial: what the external agent and
judge capabilities produce on each (1-based) attempt.  Retries re-invoke both
capabilities, so the outcomes are indexed by attempt number. -/
structure TripleEnv where
  agent : Nat → CapOutcome AgentResult
  judge : Nat → CapOutcome JudgeResult

/-- Result of one trial: the `EvaluationRun` appended to `results` on success,
or the `KEvalError` re-raised out of the task on terminal failure.
`noAttempt` is the degenerate `max_attempts = 0` case, in which Python's
`range(1, max_attempts + 1)` is empty and the loop body never runs; the
config validation (`max_attempts ≥ 1`) makes it unreachable. -/
inductive TripleOutcome where
  | success (r : EvaluationRun)
  | failure (e : KEvalError)
  | noAttempt
  deriving DecidableEq

/-- The pipeline result of attempt `k` of a trial (the value/error produced by
the `try` body at `runner.py:160-230` on that attempt). -/
def attemptResult (env : TripleEnv) (run_id : String) (t : Triple) (k : Nat) :
    Except KEvalError EvaluationRun :=
  (attemptOnce (env.agent k) (env.judge k) run_id t.sample t.condition_name
    t.condition t.repetition_index).2

/-- The events emitted by the pipeline body of attempt `k` of a trial. -/
def attemptEvents (env : TripleEnv) (run_id : String) (t : Triple) (k : Nat) :
    List Event :=
  (attemptOnce (env.agent k) (env.judge k) run_id t.sample t.condition_name
    t.condition t.repetition_index).1

/-- The `sample_condition_started` emission of `runner.py:153-159`: only on
the first attempt. -/
def startedEvents (t : Triple) (attempt : Nat) : List Event :=
  if attempt = 1 then
    [Event.sample_condition_started t.sample.sample_idx t.condition_name
      t.repetition_index]
  else []

/-- The `for attempt in range(1, max_attempts + 1)` loop of `_run_one_triple`
(`runner.py:149-278`), from attempt `attempt` with current backoff `backoff`,
with `fuel` remaining loop iterations (`fuel = max_attempts - attempt + 1`).
On the first attempt `sample_condition_started` is emitted
(`runner.py:153-159`).  On success: `sample_condition_completed`, then the
lock-protected progress block, then return (`runner.py:232-246`).  On a
non-retriable failure or a failure on the final attempt:
`sample_condition_failed`, the progress block, then `raise`
(`runner.py:248-265`).  Otherwise: `sample_condition_retry` with the current
backoff, then `await asyncio.sleep(backoff)` outside the semaphore, then
`backoff *= multiplier` and the next attempt (`runner.py:267-278`). -/
def runTripleAux (cfg : RetryConfig) (env : TripleEnv) (run_id : String)
    (t : Triple) : Nat → Nat → Nat → List Event × TripleOutcome
  | _attempt, _backoff, 0 => ([], TripleOutcome.noAttempt)
  | attempt, backoff, fuel + 1 =>
    let started := startedEvents t attempt
    let step := attemptOnce (env.agent attempt) (env.judge attempt) run_id
      t.sample t.condition_name t.condition t.repetition_index
    match step.2 with
    | .ok r =>
      (started ++ step.1 ++
        [Event.sample_condition_completed t.sample.sample_idx t.condition_name
           t.repetition_index,
         Event.progressMark t.condition_name],
       TripleOutcome.success r)
    | .error e =>
      if !e.retriable || attempt = cfg.max_attempts then
        (started ++ step.1 ++
          [Event.sample_condition_failed t.sample.sample_idx t.condition_name
             t.repetition_index e.message,
           Event.progressMark t.condition_name],
         TripleOutcome.failure e)
      else
        let rest := runTripleAux cfg env run_id t (attempt + 1)
          (backoff * cfg.backoff_multiplier) fuel
        (started ++ step.1 ++
          [Event.sample_condition_retry t.sample.sample_idx t.condition_name
             t.repetition_index attempt e.message backoff,
           Event.sleep backoff] ++ rest.1,
         rest.2)

/-- One full trial: `_run_one_triple` with `attempt = 1`,
`backoff = float(retry_cfg.initial_backoff_seconds)` (`runner.py:147`), and
`max_attempts` loop iterations available. -/
def runTriple (cfg : RetryConfig) (env : TripleEnv) (run_id : String)
    (t : Triple) : List Event × TripleOutcome :=
  runTripleAux cfg env run_id t 1 cfg.initial_backoff_seconds cfg.max_attempts

/-! ### The run-level model (`EvaluationRunner.run`, `runner.py:45-124`) -/

/-- The grid of trials launched by the nested loops at `runner.py:84-102`:
samples outer, conditions in insertion order, repetitions `0..R-1` innermost.
The condition dict is modelled as its insertion-ordered association list. -/
def gridTriples (samples : List Sample)
    (conditions : List (String × ConditionConfig)) (reps : Nat) : List Triple :=
  samples.flatMap fun s =>
    conditions.flatMap fun c =>
      (List.range reps).map fun k =>
        { sample := s, condition_name := c.1, condition := c.2
          repetition_index := k }

/-- The identity tuple of a collected result: the sort key used at
`runner.py:109-111`, `(r.sample.sample_idx, r.condition, r.repetition_index)`. -/
def identityOf (r : EvaluationRun) : String × String × Nat :=
  (r.sample.sample_idx, r.condition, r.repetition_index)

/-- The identity tuple of a trial of the grid. -/
def identityOfTriple (t : Triple) : String × String × Nat :=
  (t.sample.sample_idx, t.condition_name, t.repetition_index)

/-- Lexicographic order on identity tuples — Python's tuple comparison used by
`results.sort(key=...)`: strings compare lexicographically, the repetition
index numerically. -/
def identLe (a b : String × String × Nat) : Prop :=
  a.1 < b.1 ∨ (a.1 = b.1 ∧
    (a.2.1 < b.2.1 ∨ (a.2.1 = b.2.1 ∧ a.2.2 ≤ b.2.2)))

instance : DecidableRel identLe := fun a b => by
  unfold identLe; infer_instance

/-- Order on collected results by their identity tuple. -/
def runLe (r₁ r₂ : EvaluationRun) : Prop :=
  identLe (identityOf r₁) (identityOf r₂)

instance : DecidableRel runLe := fun a b => by
  unfold runLe; infer_instance

/-- The deterministic sort at `runner.py:109-111`:
`results.sort(key=lambda r: (r.sample.sample_idx, r.condition, r.repetition_index))`.
Python's list.sort is a stable comparison sort; it is modelled by insertion
sort on the same key order (extensionally equal: both return a sorted
permutation, and the claims never depend on the order of key-equal elements). -/
def sortRuns (rs : List EvaluationRun) : List EvaluationRun :=
  List.insertionSort runLe rs

/-- Per-trial outcomes of a grid under an environment assignment. -/
def tripleOutcome (cfg : RetryConfig) (envOf : Triple → TripleEnv)
    (run_id : String) (t : Triple) : TripleOutcome :=
  (runTriple cfg (envOf t) run_id t).2

/-- The `EvaluationRun`s appended to `results` (`runner.py:221-230`): one per
trial that resolved in success, in grid order (the concurrent completion
order is an arbitrary permutation of this list, which theorems quantify
over). -/
def successRuns (cfg : RetryConfig) (envOf : Triple → TripleEnv)
    (run_id : String) (trials : List Triple) : List EvaluationRun :=
  trials.filterMap fun t =>
    match tripleOutcome cfg envOf run_id t with
    | TripleOutcome.success r => some r
    | _ => none

/-- The terminal `KEvalError`s raised out of trial tasks: one per trial that
resolved in terminal failure. -/
def terminalFailures (cfg : RetryConfig) (envOf : Triple → TripleEnv)
    (run_id : String) (trials : List Triple) : List KEvalError :=
  trials.filterMap fun t =>
    match tripleOutcome cfg envOf run_id t with
    | TripleOutcome.failure e => some e
    | _ => none

/-- Model of `EvaluationRunner.run` after all tasks have resolved, as a
function of the nondeterministically ordered collections the TaskGroup
produced: `collectedFailures` is the exception group's exception list (empty
iff no trial failed terminally) and `collectedRuns` the `results` list in
append order.  If any failure was collected, `run` re-raises
`eg.exceptions[0]` — a single `KEvalError`, never the aggregate
(`runner.py:103-106`); otherwise it sorts the results and assembles the
`RunSummary` (`runner.py:108-124`). -/
def run_model (run_id dataset_sha256 config_name : String)
    (collectedRuns : List EvaluationRun) (collectedFailures : List KEvalError) :
    Except KEvalError RunSummary :=
  match collectedFailures with
  | e :: _ => .error e
  | [] => .ok { run_id := run_id, dataset_sha256 := dataset_sha256
                config_name := config_name, runs := sortRuns collectedRuns }

/-! ### Progress accounting (`runner.py:79-80`, `238-245`, `257-264`) -/

/-- The values `(completed_count[0], total)` emitted by successive executions
of the lock-protected progress block, starting from counter value `c`, for
`n` resolving trials: each resolution atomically increments the shared
counter and notifies the observer with the new value and the grid total. -/
def progressEmissions (total : Nat) : Nat → Nat → List (Nat × Nat)
  | _c, 0 => []
  | c, n + 1 => (c + 1, total) :: progressEmissions total (c + 1) n

/-! ### Concurrency-gate model (`asyncio.Semaphore`, `runner.py:68,150,276-277`)

Each trial task repeatedly: waits to acquire the semaphore (`async with sem`,
`runner.py:150`), runs one pipeline attempt while holding it, and releases it
on leaving the block — either resolving the trial, or entering the retry
backoff sleep which happens outside the semaphore (`runner.py:276-277`) and is
followed by a re-acquisition for the next attempt.  The phases of one task and
the interleaved transitions of all tasks form the transition system below;
`asyncio.Semaphore(m)` admits an acquisition only while fewer than `m` tasks
hold the gate. -/

/-- Phase of one trial task with respect to the concurrency gate. -/
inductive Phase where
  | pending
  | active
  | sleeping
  | resolved
  deriving DecidableEq

/-- Number of tasks currently holding the gate. -/
def countActive (ps : List Phase) : Nat :=
  ps.countP fun p => p = Phase.active

/-- One interleaving step of the scheduler: a pending task (first acquisition)
or a sleeping task (re-acquisition after backoff) acquires the gate — enabled
only while the semaphore counter is positive, i.e. fewer than `m` holders —
or an active task releases it by entering the backoff sleep or by resolving. -/
inductive SchedStep (m : Nat) : List Phase → List Phase → Prop
  | acquire (ps : List Phase) (i : Nat) (h : i < ps.length)
      (hp : ps.get ⟨i, h⟩ = Phase.pending ∨ ps.get ⟨i, h⟩ = Phase.sleeping)
      (hm : countActive ps < m) :
      SchedStep m ps (ps.set i Phase.active)
  | toSleep (ps : List Phase) (i : Nat) (h : i < ps.length)
      (hp : ps.get ⟨i, h⟩ = Phase.active) :
      SchedStep m ps (ps.set i Phase.sleeping)
  | resolve (ps : List Phase) (i : Nat) (h : i < ps.length)
      (hp : ps.get ⟨i, h⟩ = Phase.active) :
      SchedStep m ps (ps.set i Phase.resolved)

/-- States reachable from the initial state (all tasks pending) by
interleaved scheduler steps. -/
inductive SchedReachable (m : Nat) (n : Nat) : List Phase → Prop
  | init : SchedReachable m n (List.replicate n Phase.pending)
  | step {s s' : List Phase} (hs : SchedReachable m n s)
      (hstep : SchedStep m s s') : SchedReachable m n s'

/-! ### Aggregator (`k_eval/cli/output/aggregator.py`) -/

/-- AggregatedResult — one (sample, condition) group with aggregated scores.
The source's stddev fields hold `statistics.stdev` values, i.e. the square
roots of the `*_stddev_sq` fields below (with the fewer-than-2-values guard
of `_stddev` returning `0.0`); the embedding stores the squares to stay in
`ℚ`, and theorems about the standard deviation itself go through
`Real.sqrt` of these fields. -/
structure AggregatedResult where
  sample : Sample
  condition : String
  runs : List EvaluationRun
  factual_adherence_mean : ℚ
  factual_adherence_stddev_sq : ℚ
  completeness_mean : ℚ
  completeness_stddev_sq : ℚ
  helpfulness_and_clarity_mean : ℚ
  helpfulness_and_clarity_stddev_sq : ℚ
  unverified_claims : List String
  deriving DecidableEq

/-- Exact mean, as computed by `statistics.mean` (groups are never empty). -/
def meanQ (xs : List ℚ) : ℚ := xs.sum / xs.length

/-- Sample variance `Σ (x - mean)² / (n - 1)` — the square of
`statistics.stdev`. -/
def svarQ (xs : List ℚ) : ℚ :=
  (xs.map fun x => (x - meanQ xs) ^ 2).sum / ((xs.length : ℚ) - 1)

/-- Square of `_stddev` (`aggregator.py:30-34`): `0.0` for fewer than two
values, else the sample variance (square of `statistics.stdev`). -/
def stddevSq (xs : List ℚ) : ℚ :=
  if xs.length < 2 then 0 else svarQ xs

/-- First-occurrence deduplication with a `seen` accumulator — the loop at
`aggregator.py:61-67` (and, applied to group keys, the first-occurrence
keying of the `groups` dict at `aggregator.py:47-51`). -/
def dedupFirstAux {α : Type} [DecidableEq α] (seen : List α) :
    List α → List α
  | [] => []
  | c :: cs =>
    if c ∈ seen then dedupFirstAux seen cs
    else c :: dedupFirstAux (c :: seen) cs

/-- First-occurrence deduplication of a list. -/
def dedupFirst {α : Type} [DecidableEq α] (l : List α) : List α :=
  dedupFirstAux [] l

/-- Order of group members by repetition index —
`sorted(group_runs, key=lambda r: r.repetition_index)` (`aggregator.py:54`). -/
def repLe (a b : EvaluationRun) : Prop :=
  a.repetition_index ≤ b.repetition_index

instance : DecidableRel repLe := fun a b => by
  unfold repLe; infer_instance

/-- The group key `(run.sample.sample_idx, run.condition)` (`aggregator.py:48`). -/
def keyOf (r : EvaluationRun) : String × String :=
  (r.sample.sample_idx, r.condition)

/-- The aggregation of one non-empty group (`aggregator.py:52-80`): sort by
repetition index, collect the three metric score lists (cast to `ℚ` as the
source casts to `float`), deduplicate the unverified claims across the sorted
runs, and compute mean and (squared) sample stddev per metric. -/
def mkAggResult (sample : Sample) (condition : String)
    (group_runs : List EvaluationRun) : AggregatedResult :=
  let sorted_runs := List.insertionSort repLe group_runs
  let fa_scores := sorted_runs.map fun r => (r.judge_result.factual_adherence : ℚ)
  let co_scores := sorted_runs.map fun r => (r.judge_result.completeness : ℚ)
  let hc_scores := sorted_runs.map fun r =>
    (r.judge_result.helpfulness_and_clarity : ℚ)
  let deduped_claims := dedupFirst
    (sorted_runs.flatMap fun r => r.judge_result.unverified_claims)
  { sample := sample
    condition := condition
    runs := sorted_runs
    factual_adherence_mean := meanQ fa_scores
    factual_adherence_stddev_sq := stddevSq fa_scores
    completeness_mean := meanQ co_scores
    completeness_stddev_sq := stddevSq co_scores
    helpfulness_and_clarity_mean := meanQ hc_scores
    helpfulness_and_clarity_stddev_sq := stddevSq hc_scores
    unverified_claims := deduped_claims }

/-- The aggregator `aggregate` (`aggregator.py:37-89`): group the runs by
`(sample_idx, condition)` preserving first-occurrence order (the `groups`
dict scan at `aggregator.py:47-51`; each group holds, in original order, all
runs with that key), then aggregate each group.  The group's `sample` is the
first run's sample (the `samples[key]` assignment on first occurrence). -/
def aggregate (runs : List EvaluationRun) : List AggregatedResult :=
  (dedupFirst (runs.map keyOf)).filterMap fun k =>
    match runs.filter fun r => keyOf r = k with
    | [] => none
    | r0 :: rs => some (mkAggResult r0.sample k.2 (r0 :: rs))

/-! ### Concrete fixtures used by witnesses and counterexamples -/

/-- Concrete sample with a numeric string id. -/
def sampleNum : Sample := { sample_idx := "7", question := "q7", answer := "a7" }

/-- Concrete sample with a non-numeric id. -/
def sampleAbc : Sample := { sample_idx := "abc", question := "qa", answer := "aa" }

/-- Concrete sample with a different non-numeric id. -/
def sampleXyz : Sample := { sample_idx := "xyz", question := "qx", answer := "ax" }

/-- Agent result with no tool calls at all. -/
def agentNoTools : AgentResult :=
  { response := "plain answer", num_turns := 1
    turns := [{ turn_idx := 0, role := Role.assistant
                text := some "plain answer", tool_calls := [] }] }

/-- Agent result whose only tool invocation errored. -/
def agentFailedTool : AgentResult :=
  { response := "tried a tool", num_turns := 2
    turns := [{ turn_idx := 0, role := Role.tool_use, text := none
                tool_calls := [{ tool_use_id := "t1", tool_name := "search"
                                 tool_result := none, tool_error := true }] }] }

/-- Concrete judge result. -/
def judgeOk : JudgeResult :=
  { factual_adherence := 4, factual_adherence_reasoning := "r1"
    completeness := 4, completeness_reasoning := "r2"
    helpfulness_and_clarity := 4, helpfulness_and_clarity_reasoning := "r3"
    unverified_claims := [] }

/-- Condition with no gates. -/
def condPlain : ConditionConfig :=
  { system_prompt := "sp", require_mcp_tool_use := false
    require_mcp_tool_success := false }

/-- Condition requiring tool use only. -/
def condUse : ConditionConfig :=
  { system_prompt := "sp", require_mcp_tool_use := true
    require_mcp_tool_success := false }

/-- Condition requiring tool success only. -/
def condSuccess : ConditionConfig :=
  { system_prompt := "sp", require_mcp_tool_use := false
    require_mcp_tool_success := true }

/-- Condition requiring both tool use and tool success. -/
def condBoth : ConditionConfig :=
  { system_prompt := "sp", require_mcp_tool_use := true
    require_mcp_tool_success := true }

/-- Retry config: 4 attempts, initial backoff 2s, multiplier 3. -/
def cfg234 : RetryConfig :=
  { max_attempts := 4, initial_backoff_seconds := 2, backoff_multiplier := 3 }

/-- Environment in which every attempt succeeds. -/
def envOk : TripleEnv :=
  { agent := fun _ => CapOutcome.ok agentNoTools
    judge := fun _ => CapOutcome.ok judgeOk }

/-- Environment in which the agent fails retriably on every attempt. -/
def envRetriable : TripleEnv :=
  { agent := fun _ => CapOutcome.err (KEvalError.capability "boom" true)
    judge := fun _ => CapOutcome.ok judgeOk }

/-- Environment in which the agent fails non-retriably on every attempt. -/
def envFatal : TripleEnv :=
  { agent := fun _ => CapOutcome.err (KEvalError.capability "fatal" false)
    judge := fun _ => CapOutcome.ok judgeOk }

/-- Trial of `sampleNum` under `condPlain`, repetition 0. -/
def tripleNumPlain : Triple :=
  { sample := sampleNum, condition_name := "baseline", condition := condPlain
    repetition_index := 0 }

/-! ### Order properties of the sort keys -/

theorem identLe_trans {a b c : String × String × Nat}
    (h1 : identLe a b) (h2 : identLe b c) : identLe a c := by
  unfold identLe at h1 h2 ⊢
  rcases h1 with h1 | ⟨e1, h1⟩
  · rcases h2 with h2 | ⟨e2, _⟩
    · exact Or.inl (lt_trans h1 h2)
    · exact Or.inl (by rw [← e2]; exact h1)
  · rcases h2 with h2 | ⟨e2, h2⟩
    · exact Or.inl (by rw [e1]; exact h2)
    · refine Or.inr ⟨e1.trans e2, ?_⟩
      rcases h1 with h1 | ⟨f1, h1⟩
      · rcases h2 with h2 | ⟨f2, _⟩
        · exact Or.inl (lt_trans h1 h2)
        · exact Or.inl (by rw [← f2]; exact h1)
      · rcases h2 with h2 | ⟨f2, h2⟩
        · exact Or.inl (by rw [f1]; exact h2)
        · exact Or.inr ⟨f1.trans f2, le_trans h1 h2⟩

theorem identLe_total (a b : String × String × Nat) :
    identLe a b ∨ identLe b a := by
  unfold identLe
  rcases lt_trichotomy a.1 b.1 with h | h | h
  · exact Or.inl (Or.inl h)
  · rcases lt_trichotomy a.2.1 b.2.1 with h2 | h2 | h2
    · exact Or.inl (Or.inr ⟨h, Or.inl h2⟩)
    · rcases le_total a.2.2 b.2.2 with h3 | h3
      · exact Or.inl (Or.inr ⟨h, Or.inr ⟨h2, h3⟩⟩)
      · exact Or.inr (Or.inr ⟨h.symm, Or.inr ⟨h2.symm, h3⟩⟩)
    · exact Or.inr (Or.inr ⟨h.symm, Or.inl h2⟩)
  · exact Or.inr (Or.inl h)

instance : IsTrans (String × String × Nat) identLe :=
  ⟨fun _ _ _ => identLe_trans⟩

instance : IsTotal (String × String × Nat) identLe :=
  ⟨identLe_total⟩

instance : IsTrans EvaluationRun runLe :=
  ⟨fun _ _ _ => identLe_trans⟩

instance : IsTotal EvaluationRun runLe :=
  ⟨fun _ _ => identLe_total _ _⟩

instance : IsTrans EvaluationRun repLe :=
  ⟨fun _ _ _ => Nat.le_trans⟩

instance : IsTotal EvaluationRun repLe :=
  ⟨fun _ _ => Nat.le_total _ _⟩

/-! ### Trace counting helpers -/

/-- Whether an event is a retry notification for attempt `n`. -/
def isRetryAt (n : Nat) : Event → Bool
  | Event.sample_condition_retry _ _ _ a _ _ => a == n
  | _ => false

/-- Number of retry notifications for attempt `n` in a trace. -/
def retryCountAt (n : Nat) (evs : List Event) : Nat :=
  evs.countP (isRetryAt n)

/-- Whether an event is an execution of the progress block. -/
def isProgress : Event → Bool
  | Event.progressMark _ => true
  | _ => false

/-- Number of progress-block executions in a trace. -/
def progressCount (evs : List Event) : Nat :=
  evs.countP isProgress

/-- The backoff values carried by the retry notifications of a trace,
in emission order. -/
def retryBackoffs (evs : List Event) : List Nat :=
  evs.filterMap fun ev =>
    match ev with
    | Event.sample_condition_retry _ _ _ _ _ b => some b
    | _ => none

/-! ### Properties of one pipeline attempt -/

theorem attemptOnce_no_retry (n : Nat) (ag : CapOutcome AgentResult)
    (jd : CapOutcome JudgeResult) (rid : String) (s : Sample) (cn : String)
    (c : ConditionConfig) (rep : Nat) :
    retryCountAt n (attemptOnce ag jd rid s cn c rep).1 = 0 := by
  unfold attemptOnce retryCountAt
  cases ag with
  | err e => simp
  | ok ar =>
    dsimp only
    split
    · simp [isRetryAt]
    · split
      · simp [isRetryAt]
      · cases jd <;> simp [isRetryAt]

theorem attemptOnce_no_progress (ag : CapOutcome AgentResult)
    (jd : CapOutcome JudgeResult) (rid : String) (s : Sample) (cn : String)
    (c : ConditionConfig) (rep : Nat) :
    progressCount (attemptOnce ag jd rid s cn c rep).1 = 0 := by
  unfold attemptOnce progressCount
  cases ag with
  | err e => simp
  | ok ar =>
    dsimp only
    split
    · simp [isProgress]
    · split
      · simp [isProgress]
      · cases jd <;> simp [isProgress]

theorem attemptOnce_success_identity {ag : CapOutcome AgentResult}
    {jd : CapOutcome JudgeResult} {rid : String} {s : Sample} {cn : String}
    {c : ConditionConfig} {rep : Nat} {r : EvaluationRun}
    (h : (attemptOnce ag jd rid s cn c rep).2 = Except.ok r) :
    r.run_id = rid ∧ r.sample = s ∧ r.condition = cn ∧
      r.repetition_index = rep := by
  unfold attemptOnce at h
  cases ag with
  | err e => simp at h
  | ok ar =>
    dsimp only at h
    split at h
    · simp at h
    · split at h
      · simp at h
      · cases jd with
        | err e => simp at h
        | ok jr =>
          simp only [Except.ok.injEq] at h
          subst h
          exact ⟨rfl, rfl, rfl, rfl⟩

/-! ### Unfolding the retry loop -/

theorem runTripleAux_ok {cfg : RetryConfig} {env : TripleEnv} {rid : String}
    {t : Triple} {k b fuel : Nat} {r : EvaluationRun}
    (h : attemptResult env rid t k = Except.ok r) :
    runTripleAux cfg env rid t k b (fuel + 1) =
      (startedEvents t k ++ attemptEvents env rid t k ++
        [Event.sample_condition_completed t.sample.sample_idx t.condition_name
           t.repetition_index,
         Event.progressMark t.condition_name],
       TripleOutcome.success r) := by
  unfold attemptResult at h
  simp only [runTripleAux, attemptEvents, h]

theorem runTripleAux_terminal {cfg : RetryConfig} {env : TripleEnv}
    {rid : String} {t : Triple} {k b fuel : Nat} {e : KEvalError}
    (h : attemptResult env rid t k = Except.error e)
    (hterm : e.retriable = false ∨ k = cfg.max_attempts) :
    runTripleAux cfg env rid t k b (fuel + 1) =
      (startedEvents t k ++ attemptEvents env rid t k ++
        [Event.sample_condition_failed t.sample.sample_idx t.condition_name
           t.repetition_index e.message,
         Event.progressMark t.condition_name],
       TripleOutcome.failure e) := by
  unfold attemptResult at h
  simp only [runTripleAux, attemptEvents, h]
  have : (!e.retriable || k = cfg.max_attempts) = true := by
    rcases hterm with h' | h' <;> simp [h']
  rw [if_pos this]

theorem runTripleAux_retry {cfg : RetryConfig} {env : TripleEnv}
    {rid : String} {t : Triple} {k b fuel : Nat} {e : KEvalError}
    (h : attemptResult env rid t k = Except.error e)
    (hret : e.retriable = true) (hk : k ≠ cfg.max_attempts) :
    runTripleAux cfg env rid t k b (fuel + 1) =
      (startedEvents t k ++ attemptEvents env rid t k ++
        [Event.sample_condition_retry t.sample.sample_idx t.condition_name
           t.repetition_index k e.message b,
         Event.sleep b] ++
        (runTripleAux cfg env rid t (k + 1) (b * cfg.backoff_multiplier) fuel).1,
       (runTripleAux cfg env rid t (k + 1) (b * cfg.backoff_multiplier) fuel).2) := by
  unfold attemptResult at h
  simp only [runTripleAux, attemptEvents, h]
  have : (!e.retriable || k = cfg.max_attempts) = false := by
    simp [hret, hk]
  rw [if_neg (by simp [this])]

/-! ### Counting events in the retry loop -/

theorem retryCountAt_append (n : Nat) (l₁ l₂ : List Event) :
    retryCountAt n (l₁ ++ l₂) = retryCountAt n l₁ + retryCountAt n l₂ :=
  List.countP_append _ _ _

theorem progressCount_append (l₁ l₂ : List Event) :
    progressCount (l₁ ++ l₂) = progressCount l₁ + progressCount l₂ :=
  List.countP_append _ _ _

theorem retryCountAt_startedEvents (n : Nat) (t : Triple) (k : Nat) :
    retryCountAt n (startedEvents t k) = 0 := by
  unfold startedEvents retryCountAt
  split <;> simp [isRetryAt]

theorem progressCount_startedEvents (t : Triple) (k : Nat) :
    progressCount (startedEvents t k) = 0 := by
  unfold startedEvents progressCount
  split <;> simp [isProgress]

theorem retryCountAt_attemptEvents (n : Nat) (env : TripleEnv) (rid : String)
    (t : Triple) (k : Nat) : retryCountAt n (attemptEvents env rid t k) = 0 :=
  attemptOnce_no_retry n (env.agent k) (env.judge k) rid t.sample
    t.condition_name t.condition t.repetition_index

theorem progressCount_attemptEvents (env : TripleEnv) (rid : String)
    (t : Triple) (k : Nat) : progressCount (attemptEvents env rid t k) = 0 :=
  attemptOnce_no_progress (env.agent k) (env.judge k) rid t.sample
    t.condition_name t.condition t.repetition_index

/-- Retry notifications in the loop suffix starting at attempt `k` all carry
attempt numbers `≥ k`. -/
theorem retryCountAt_runTripleAux_lt (cfg : RetryConfig) (env : TripleEnv)
    (rid : String) (t : Triple) (n : Nat) :
    ∀ fuel k b, n < k →
      retryCountAt n (runTripleAux cfg env rid t k b fuel).1 = 0 := by
  intro fuel
  induction fuel with
  | zero => intro k b _; simp [runTripleAux, retryCountAt]
  | succ fuel ih =>
    intro k b hnk
    cases h : attemptResult env rid t k with
    | ok r =>
      rw [runTripleAux_ok h]
      simp only [retryCountAt_append, retryCountAt_startedEvents,
        retryCountAt_attemptEvents]
      simp [retryCountAt, isRetryAt]
    | error e =>
      by_cases hterm : e.retriable = false ∨ k = cfg.max_attempts
      · rw [runTripleAux_terminal h hterm]
        simp only [retryCountAt_append, retryCountAt_startedEvents,
          retryCountAt_attemptEvents]
        simp [retryCountAt, isRetryAt]
      · push_neg at hterm
        have hret : e.retriable = true := by
          cases hr : e.retriable
          · exact absurd hr hterm.1
          · rfl
        rw [runTripleAux_retry h hret hterm.2]
        have hkn : (k == n) = false := by
          simp only [beq_eq_false_iff_ne]
          omega
        simp only [retryCountAt_append, retryCountAt_startedEvents,
          retryCountAt_attemptEvents,
          ih (k + 1) (b * cfg.backoff_multiplier) (by omega)]
        simp [retryCountAt, isRetryAt, hkn]

/-- Exactly one progress-block execution per resolving trial: the loop suffix
starting at attempt `k` with the remaining-iteration invariant executes the
lock-protected progress block exactly once, whether it ends in success or in
terminal failure. -/
theorem progressCount_runTripleAux (cfg : RetryConfig) (env : TripleEnv)
    (rid : String) (t : Triple) :
    ∀ fuel k b, k + fuel = cfg.max_attempts + 1 → 1 ≤ fuel →
      progressCount (runTripleAux cfg env rid t k b fuel).1 = 1 := by
  intro fuel
  induction fuel with
  | zero => intro k b _ hfuel; omega
  | succ fuel ih =>
    intro k b hinv _
    cases h : attemptResult env rid t k with
    | ok r =>
      rw [runTripleAux_ok h]
      simp only [progressCount_append, progressCount_startedEvents,
        progressCount_attemptEvents]
      simp [progressCount, isProgress]
    | error e =>
      by_cases hterm : e.retriable = false ∨ k = cfg.max_attempts
      · rw [runTripleAux_terminal h hterm]
        simp only [progressCount_append, progressCount_startedEvents,
          progressCount_attemptEvents]
        simp [progressCount, isProgress]
      · push_neg at hterm
        have hret : e.retriable = true := by
          cases hr : e.retriable
          · exact absurd hr hterm.1
          · rfl
        rw [runTripleAux_retry h hret hterm.2]
        have hfuel : 1 ≤ fuel := by
          rcases Nat.lt_or_ge k cfg.max_attempts with hlt | hge
          · omega
          · exact absurd (by omega : k = cfg.max_attempts) hterm.2
        simp only [progressCount_append, progressCount_startedEvents,
          progressCount_attemptEvents,
          ih (k + 1) (b * cfg.backoff_multiplier) (by omega) hfuel]
        simp [progressCount, isProgress]

/-- Reaching attempt `k`: if every attempt before `k` failed retriably, the
trial's trace decomposes into a prefix (whose retry notifications all carry
attempt numbers `< k`) followed by the loop suffix that starts at attempt `k`
with backoff `initial * multiplier ^ (k - 1)`, and the trial's outcome is the
suffix's outcome. -/
theorem runTriple_reach (cfg : RetryConfig) (env : TripleEnv) (rid : String)
    (t : Triple) (k : Nat) (hk1 : 1 ≤ k) (hkmax : k ≤ cfg.max_attempts)
    (hpre : ∀ i, 1 ≤ i → i < k →
      ∃ e, attemptResult env rid t i = Except.error e ∧ e.retriable = true) :
    ∃ pre,
      (runTriple cfg env rid t).1 =
        pre ++ (runTripleAux cfg env rid t k
          (cfg.initial_backoff_seconds * cfg.backoff_multiplier ^ (k - 1))
          (cfg.max_attempts - k + 1)).1 ∧
      (runTriple cfg env rid t).2 =
        (runTripleAux cfg env rid t k
          (cfg.initial_backoff_seconds * cfg.backoff_multiplier ^ (k - 1))
          (cfg.max_attempts - k + 1)).2 ∧
      (∀ n, k ≤ n → retryCountAt n pre = 0) := by
  induction k with
  | zero => omega
  | succ k ih =>
    rcases Nat.eq_or_lt_of_le hk1 with h1 | h1
    · -- k + 1 = 1: the suffix is the whole loop.
      refine ⟨[], ?_, ?_, ?_⟩
      · rw [runTriple]
        have e1 : k + 1 - 1 = 0 := by omega
        have e2 : cfg.max_attempts - (k + 1) + 1 = cfg.max_attempts := by omega
        have e3 : k + 1 = 1 := by omega
        rw [e1, e2, e3, pow_zero, Nat.mul_one]
        simp
      · rw [runTriple]
        have e1 : k + 1 - 1 = 0 := by omega
        have e2 : cfg.max_attempts - (k + 1) + 1 = cfg.max_attempts := by omega
        have e3 : k + 1 = 1 := by omega
        rw [e1, e2, e3, pow_zero, Nat.mul_one]
      · intro n _; simp [retryCountAt]
    · -- k ≥ 1: reach attempt k, then unfold one retriable failure.
      have hk' : 1 ≤ k := by omega
      have hkmax' : k ≤ cfg.max_attempts := by omega
      obtain ⟨pre, htr, hout, hcnt⟩ := ih hk' hkmax'
        (fun i h1 h2 => hpre i h1 (by omega))
      obtain ⟨e, he, heret⟩ := hpre k hk' (by omega)
      have hkne : k ≠ cfg.max_attempts := by omega
      have hfuel : cfg.max_attempts - k + 1 = (cfg.max_attempts - (k + 1) + 1) + 1 := by
        omega
      have hbk : cfg.initial_backoff_seconds * cfg.backoff_multiplier ^ (k - 1)
          * cfg.backoff_multiplier =
          cfg.initial_backoff_seconds * cfg.backoff_multiplier ^ (k + 1 - 1) := by
        rw [Nat.mul_assoc, ← pow_succ]
        congr 2
        omega
      rw [hfuel] at htr hout
      rw [runTripleAux_retry he heret hkne] at htr hout
      refine ⟨pre ++ (startedEvents t k ++ attemptEvents env rid t k ++
        [Event.sample_condition_retry t.sample.sample_idx t.condition_name
           t.repetition_index k e.message
           (cfg.initial_backoff_seconds * cfg.backoff_multiplier ^ (k - 1)),
         Event.sleep
           (cfg.initial_backoff_seconds * cfg.backoff_multiplier ^ (k - 1))]),
        ?_, ?_, ?_⟩
      · rw [htr, hbk]
        simp [List.append_assoc]
      · rw [hout, hbk]
      · intro n hn
        have hkn : (k == n) = false := by
          simp only [beq_eq_false_iff_ne]
          omega
        simp only [retryCountAt_append, hcnt n (by omega),
          retryCountAt_startedEvents, retryCountAt_attemptEvents]
        simp [retryCountAt, isRetryAt, hkn]

/-! ### Claim C2 -/

/-- C2: for every trial attempt `k` with `1 ≤ k < maxAttempts` that fails
with a retriable failure, exactly one retry notification is emitted, carrying
attempt number `k`, the failure reason, and the computed backoff
`initialBackoff * multiplier ^ (k - 1)`; the task then sleeps for exactly
that duration, immediately followed by the loop suffix of attempt `k + 1`.
A non-retriable failure, or a failure on the final attempt, emits no retry
notification for that attempt and propagates unmodified as the trial's
outcome.  The hypothesis `hpre` states that attempt `k` is actually reached:
every earlier attempt failed retriably. -/
theorem c2_retry_policy (cfg : RetryConfig) (env : TripleEnv) (rid : String)
    (t : Triple) (k : Nat) (e : KEvalError)
    (hk1 : 1 ≤ k) (hkmax : k ≤ cfg.max_attempts)
    (hpre : ∀ i, 1 ≤ i → i < k →
      ∃ e', attemptResult env rid t i = Except.error e' ∧ e'.retriable = true)
    (hk : attemptResult env rid t k = Except.error e) :
    (e.retriable = true → k < cfg.max_attempts →
      retryCountAt k (runTriple cfg env rid t).1 = 1 ∧
      ∃ pre,
        (runTriple cfg env rid t).1 =
          pre ++
          Event.sample_condition_retry t.sample.sample_idx t.condition_name
            t.repetition_index k e.message
            (cfg.initial_backoff_seconds * cfg.backoff_multiplier ^ (k - 1)) ::
          Event.sleep
            (cfg.initial_backoff_seconds * cfg.backoff_multiplier ^ (k - 1)) ::
          (runTripleAux cfg env rid t (k + 1)
            (cfg.initial_backoff_seconds * cfg.backoff_multiplier ^ (k - 1) *
              cfg.backoff_multiplier)
            (cfg.max_attempts - (k + 1) + 1)).1) ∧
    ((e.retriable = false ∨ k = cfg.max_attempts) →
      retryCountAt k (runTriple cfg env rid t).1 = 0 ∧
      (runTriple cfg env rid t).2 = TripleOutcome.failure e) := by
  obtain ⟨pre, htr, hout, hcnt⟩ := runTriple_reach cfg env rid t k hk1 hkmax hpre
  constructor
  · intro hret hklt
    have hfuel : cfg.max_attempts - k + 1 = (cfg.max_attempts - (k + 1) + 1) + 1 := by
      omega
    rw [hfuel, runTripleAux_retry hk hret (by omega)] at htr
    constructor
    · have hkk : (k == k) = true := by simp
      rw [htr]
      simp only [retryCountAt_append, hcnt k (le_refl k),
        retryCountAt_startedEvents, retryCountAt_attemptEvents,
        retryCountAt_runTripleAux_lt cfg env rid t k _ (k + 1) _ (by omega)]
      simp [retryCountAt, isRetryAt]
    · refine ⟨pre ++ (startedEvents t k ++ attemptEvents env rid t k), ?_⟩
      rw [htr]
      simp [List.append_assoc]
  · intro hterm
    rw [runTripleAux_terminal hk hterm] at htr hout
    refine ⟨?_, hout⟩
    rw [htr]
    simp only [retryCountAt_append, hcnt k (le_refl k),
      retryCountAt_startedEvents, retryCountAt_attemptEvents]
    simp [retryCountAt, isRetryAt]

/-- Witness for C2 at concrete inputs: under a config with 4 attempts and an
agent failing retriably on every attempt, attempt 2 emits exactly one retry
notification, while attempt 4 (the final one) emits none and its error
propagates unmodified as the trial outcome. -/
theorem c2_retry_policy_witness :
    retryCountAt 2 (runTriple cfg234 envRetriable "rid" tripleNumPlain).1 = 1 ∧
    retryCountAt 4 (runTriple cfg234 envRetriable "rid" tripleNumPlain).1 = 0 ∧
    (runTriple cfg234 envRetriable "rid" tripleNumPlain).2 =
      TripleOutcome.failure (KEvalError.capability "boom" true) := by
  have h2 := c2_retry_policy cfg234 envRetriable "rid" tripleNumPlain 2
    (KEvalError.capability "boom" true) (by decide) (by decide)
    (fun i _ _ => ⟨KEvalError.capability "boom" true, rfl, rfl⟩) rfl
  have h4 := c2_retry_policy cfg234 envRetriable "rid" tripleNumPlain 4
    (KEvalError.capability "boom" true) (by decide) (by decide)
    (fun i _ _ => ⟨KEvalError.capability "boom" true, rfl, rfl⟩) rfl
  exact ⟨(h2.1 rfl (by decide)).1, (h4.2 (Or.inr rfl)).1, (h4.2 (Or.inr rfl)).2⟩

/-! ### Claim C3 -/

/-- C3: the backoff delay used after the `k`-th failed attempt — reported in
that attempt's retry notification and slept immediately after — equals
`initialBackoff * multiplier ^ (k - 1)`; in particular, with
`initialBackoff = 2` and `multiplier = 3`, a trial whose attempts keep
failing retriably emits retry notifications with backoffs exactly
`[2, 6, 18]` for attempts 1, 2, 3. -/
theorem c3_backoff_formula (cfg : RetryConfig) (env : TripleEnv) (rid : String)
    (t : Triple) (k : Nat) (e : KEvalError)
    (hk1 : 1 ≤ k) (hklt : k < cfg.max_attempts)
    (hpre : ∀ i, 1 ≤ i → i < k →
      ∃ e', attemptResult env rid t i = Except.error e' ∧ e'.retriable = true)
    (hk : attemptResult env rid t k = Except.error e)
    (hret : e.retriable = true) :
    (∃ pre suf,
      (runTriple cfg env rid t).1 =
        pre ++
        Event.sample_condition_retry t.sample.sample_idx t.condition_name
          t.repetition_index k e.message
          (cfg.initial_backoff_seconds * cfg.backoff_multiplier ^ (k - 1)) ::
        Event.sleep
          (cfg.initial_backoff_seconds * cfg.backoff_multiplier ^ (k - 1)) ::
        suf) ∧
    retryBackoffs (runTriple cfg234 envRetriable "rid" tripleNumPlain).1 =
      [2, 6, 18] := by
  constructor
  · obtain ⟨pre, htr, _, _⟩ := runTriple_reach cfg env rid t k hk1
      (le_of_lt hklt) hpre
    have hfuel : cfg.max_attempts - k + 1 = (cfg.max_attempts - (k + 1) + 1) + 1 := by
      omega
    rw [hfuel, runTripleAux_retry hk hret (by omega)] at htr
    refine ⟨pre ++ (startedEvents t k ++ attemptEvents env rid t k),
      (runTripleAux cfg env rid t (k + 1)
        (cfg.initial_backoff_seconds * cfg.backoff_multiplier ^ (k - 1) *
          cfg.backoff_multiplier)
        (cfg.max_attempts - (k + 1) + 1)).1, ?_⟩
    rw [htr]
    simp [List.append_assoc]
  · decide

/-- Witness for C3 at a concrete input: attempt 1 of a trial whose agent
fails retriably, under initial backoff 2 and multiplier 3. -/
theorem c3_backoff_formula_witness :
    (∃ pre suf,
      (runTriple cfg234 envRetriable "rid" tripleNumPlain).1 =
        pre ++
        Event.sample_condition_retry "7" "baseline" 0 1 "boom"
          (cfg234.initial_backoff_seconds * cfg234.backoff_multiplier ^ (1 - 1)) ::
        Event.sleep
          (cfg234.initial_backoff_seconds * cfg234.backoff_multiplier ^ (1 - 1)) ::
        suf) ∧
    retryBackoffs (runTriple cfg234 envRetriable "rid" tripleNumPlain).1 =
      [2, 6, 18] :=
  c3_backoff_formula cfg234 envRetriable "rid" tripleNumPlain 1
    (KEvalError.capability "boom" true) (by decide) (by decide)
    (fun i h1 h2 => absurd (Nat.lt_of_lt_of_le h2 h1) (Nat.lt_irrefl i))
    rfl rfl

/-! ### Claim C4 -/

/-- C4: for every trial whose condition requires MCP tool use and whose agent
outcome contains zero tool invocations, the pipeline emits the
`mcp_tool_use_absent` notification and raises `McpToolUseAbsentError` — an
error whose retriable flag is true — without ever invoking the judge
capability on that attempt. -/
theorem c4_tool_use_gate (jd : CapOutcome JudgeResult) (rid : String)
    (s : Sample) (cn : String) (c : ConditionConfig) (rep : Nat)
    (ar : AgentResult) (hreq : c.require_mcp_tool_use = true)
    (hempty : all_tool_calls ar = []) :
    (attemptOnce (CapOutcome.ok ar) jd rid s cn c rep).2 =
      Except.error (KEvalError.mcpToolUseAbsent cn
        (reportedSampleIdx s.sample_idx)) ∧
    (KEvalError.mcpToolUseAbsent cn (reportedSampleIdx s.sample_idx)).retriable
      = true ∧
    Event.mcp_tool_use_absent cn (reportedSampleIdx s.sample_idx) rep ∈
      (attemptOnce (CapOutcome.ok ar) jd rid s cn c rep).1 ∧
    (∀ cn' sidx, Event.judge_invoked cn' sidx ∉
      (attemptOnce (CapOutcome.ok ar) jd rid s cn c rep).1) := by
  have hevs : attemptOnce (CapOutcome.ok ar) jd rid s cn c rep =
      ([Event.mcp_tool_use_absent cn (reportedSampleIdx s.sample_idx) rep],
       Except.error (KEvalError.mcpToolUseAbsent cn
         (reportedSampleIdx s.sample_idx))) := by
    unfold attemptOnce
    simp [hempty, hreq]
  rw [hevs]
  refine ⟨rfl, rfl, List.mem_singleton.mpr rfl, ?_⟩
  intro cn' sidx hmem
  simp at hmem

/-- Witness for C4 at a concrete input: condition requiring tool use, agent
outcome with no tool calls. -/
theorem c4_tool_use_gate_witness :
    (attemptOnce (CapOutcome.ok agentNoTools) (CapOutcome.ok judgeOk) "rid"
      sampleNum "needs-tools" condUse 0).2 =
      Except.error (KEvalError.mcpToolUseAbsent "needs-tools" 7) ∧
    (KEvalError.mcpToolUseAbsent "needs-tools" 7).retriable = true ∧
    Event.mcp_tool_use_absent "needs-tools" 7 0 ∈
      (attemptOnce (CapOutcome.ok agentNoTools) (CapOutcome.ok judgeOk) "rid"
        sampleNum "needs-tools" condUse 0).1 ∧
    (∀ cn' sidx, Event.judge_invoked cn' sidx ∉
      (attemptOnce (CapOutcome.ok agentNoTools) (CapOutcome.ok judgeOk) "rid"
        sampleNum "needs-tools" condUse 0).1) :=
  c4_tool_use_gate (CapOutcome.ok judgeOk) "rid" sampleNum "needs-tools"
    condUse 0 agentNoTools rfl rfl

/-! ### Claim C5 -/

/-- C5 (amended): for every trial whose condition requires MCP tool success:
if the agent outcome contains at least one tool invocation and every
invocation failed, the pipeline raises `McpToolSuccessAbsentError`, whose
retriable flag is true; if the agent outcome contains zero tool invocations,
the tool-success gate is skipped entirely — the attempt behaves exactly as if
`require_mcp_tool_success` were unset — and the pipeline proceeds to the
judge unless the tool-use gate fired first (which happens exactly when the
condition also requires tool use). -/
theorem c5_tool_success_gate (jd : CapOutcome JudgeResult) (rid : String)
    (s : Sample) (cn : String) (c : ConditionConfig) (rep : Nat)
    (ar : AgentResult) (hreq : c.require_mcp_tool_success = true) :
    (all_tool_calls ar ≠ [] →
      (∀ tc ∈ all_tool_calls ar, tc.tool_error = true) →
      (attemptOnce (CapOutcome.ok ar) jd rid s cn c rep).2 =
        Except.error (KEvalError.mcpToolSuccessAbsent cn
          (reportedSampleIdx s.sample_idx)) ∧
      (KEvalError.mcpToolSuccessAbsent cn
        (reportedSampleIdx s.sample_idx)).retriable = true) ∧
    (all_tool_calls ar = [] →
      attemptOnce (CapOutcome.ok ar) jd rid s cn c rep =
        attemptOnce (CapOutcome.ok ar) jd rid s cn
          { system_prompt := c.system_prompt
            require_mcp_tool_use := c.require_mcp_tool_use
            require_mcp_tool_success := false } rep ∧
      (c.require_mcp_tool_use = false →
        Event.judge_invoked cn s.sample_idx ∈
          (attemptOnce (CapOutcome.ok ar) jd rid s cn c rep).1)) := by
  constructor
  · intro hne hall
    have hevs : attemptOnce (CapOutcome.ok ar) jd rid s cn c rep =
        ([Event.mcp_tool_success_absent cn (reportedSampleIdx s.sample_idx)
            rep],
         Except.error (KEvalError.mcpToolSuccessAbsent cn
           (reportedSampleIdx s.sample_idx))) := by
      unfold attemptOnce
      have h1 : (all_tool_calls ar).isEmpty = false := by
        cases hx : all_tool_calls ar
        · exact absurd hx hne
        · rfl
      have h2 : (all_tool_calls ar).all (fun tc => tc.tool_error) = true := by
        rw [List.all_eq_true]
        exact hall
      simp [h1, h2, hreq]
    rw [hevs]
    exact ⟨rfl, rfl⟩
  · intro hempty
    constructor
    · unfold attemptOnce
      simp [hempty]
    · intro huse
      have hevs : attemptOnce (CapOutcome.ok ar) jd rid s cn c rep =
          (match jd with
           | CapOutcome.err e =>
             ([Event.judge_invoked cn s.sample_idx], Except.error e)
           | CapOutcome.ok jr =>
             ([Event.judge_invoked cn s.sample_idx],
              Except.ok { run_id := rid, sample := s, condition := cn
                          repetition_index := rep, agent_result := ar
                          judge_result := jr })) := by
        unfold attemptOnce
        simp [hempty, hreq, huse]
      rw [hevs]
      cases jd <;> simp

/-- Witness for C5 at concrete inputs: a condition requiring tool success
with a single errored tool call raises the retriable gate error; with zero
tool calls the gate is skipped and (tool use not being required) the judge is
invoked. -/
theorem c5_tool_success_gate_witness :
    ((attemptOnce (CapOutcome.ok agentFailedTool) (CapOutcome.ok judgeOk)
        "rid" sampleNum "needs-success" condSuccess 0).2 =
      Except.error (KEvalError.mcpToolSuccessAbsent "needs-success" 7) ∧
     (KEvalError.mcpToolSuccessAbsent "needs-success" 7).retriable = true) ∧
    (attemptOnce (CapOutcome.ok agentNoTools) (CapOutcome.ok judgeOk) "rid"
        sampleNum "needs-success" condSuccess 0 =
      attemptOnce (CapOutcome.ok agentNoTools) (CapOutcome.ok judgeOk) "rid"
        sampleNum "needs-success"
        { system_prompt := condSuccess.system_prompt
          require_mcp_tool_use := condSuccess.require_mcp_tool_use
          require_mcp_tool_success := false } 0 ∧
     Event.judge_invoked "needs-success" "7" ∈
       (attemptOnce (CapOutcome.ok agentNoTools) (CapOutcome.ok judgeOk)
         "rid" sampleNum "needs-success" condSuccess 0).1) := by
  constructor
  · exact (c5_tool_success_gate (CapOutcome.ok judgeOk) "rid" sampleNum
      "needs-success" condSuccess 0 agentFailedTool rfl).1
      (by decide) (by decide)
  · exact ⟨((c5_tool_success_gate (CapOutcome.ok judgeOk) "rid" sampleNum
      "needs-success" condSuccess 0 agentNoTools rfl).2 rfl).1,
      ((c5_tool_success_gate (CapOutcome.ok judgeOk) "rid" sampleNum
      "needs-success" condSuccess 0 agentNoTools rfl).2 rfl).2 rfl⟩

/-- Counterexample to C5 as stated: a condition with both
`require_mcp_tool_use` and `require_mcp_tool_success` set, and an agent
outcome with zero tool invocations.  The tool-success gate raises nothing,
but the pipeline does NOT proceed to the judge: the tool-use gate fires
first, so the attempt ends with `McpToolUseAbsentError` and no
`judge_invoked` event is ever emitted. -/
theorem c5_counterexample :
    condBoth.require_mcp_tool_success = true ∧
    all_tool_calls agentNoTools = [] ∧
    (attemptOnce (CapOutcome.ok agentNoTools) (CapOutcome.ok judgeOk) "rid"
      sampleNum "both-gates" condBoth 0).1 =
      [Event.mcp_tool_use_absent "both-gates" 7 0] ∧
    (attemptOnce (CapOutcome.ok agentNoTools) (CapOutcome.ok judgeOk) "rid"
      sampleNum "both-gates" condBoth 0).2 =
      Except.error (KEvalError.mcpToolUseAbsent "both-gates" 7) ∧
    Event.judge_invoked "both-gates" "7" ∉
      (attemptOnce (CapOutcome.ok agentNoTools) (CapOutcome.ok judgeOk) "rid"
        sampleNum "both-gates" condBoth 0).1 := by
  exact ⟨rfl, rfl, rfl, rfl, by decide⟩

/-! ### Claim C10 -/

/-- C10: the gate observer notifications (and the gate error objects) report
the sample identifier as `int(sample_idx)` when the id consists solely of
decimal digits and as `0` for every other id — so distinct samples with
non-numeric ids are indistinguishable in these events. -/
theorem c10_reported_sample_idx :
    (∀ (jd : CapOutcome JudgeResult) (rid : String) (s : Sample) (cn : String)
        (c : ConditionConfig) (rep : Nat) (ar : AgentResult),
      c.require_mcp_tool_use = true → all_tool_calls ar = [] →
      (attemptOnce (CapOutcome.ok ar) jd rid s cn c rep).1 =
        [Event.mcp_tool_use_absent cn (reportedSampleIdx s.sample_idx) rep] ∧
      (attemptOnce (CapOutcome.ok ar) jd rid s cn c rep).2 =
        Except.error (KEvalError.mcpToolUseAbsent cn
          (reportedSampleIdx s.sample_idx))) ∧
    (∀ (jd : CapOutcome JudgeResult) (rid : String) (s : Sample) (cn : String)
        (c : ConditionConfig) (rep : Nat) (ar : AgentResult),
      c.require_mcp_tool_success = true → all_tool_calls ar ≠ [] →
      (∀ tc ∈ all_tool_calls ar, tc.tool_error = true) →
      (attemptOnce (CapOutcome.ok ar) jd rid s cn c rep).1 =
        [Event.mcp_tool_success_absent cn (reportedSampleIdx s.sample_idx)
          rep] ∧
      (attemptOnce (CapOutcome.ok ar) jd rid s cn c rep).2 =
        Except.error (KEvalError.mcpToolSuccessAbsent cn
          (reportedSampleIdx s.sample_idx))) ∧
    (∀ s : String, py_isdigit s = true → reportedSampleIdx s = py_int s) ∧
    (∀ s : String, py_isdigit s = false → reportedSampleIdx s = 0) ∧
    reportedSampleIdx "42" = 42 ∧
    sampleAbc.sample_idx ≠ sampleXyz.sample_idx ∧
    reportedSampleIdx sampleAbc.sample_idx = 0 ∧
    reportedSampleIdx sampleXyz.sample_idx = 0 := by
  refine ⟨?_, ?_, ?_, ?_, by decide, by decide, by decide, by decide⟩
  · intro jd rid s cn c rep ar hreq hempty
    constructor
    · unfold attemptOnce
      simp [hempty, hreq]
    · unfold attemptOnce
      simp [hempty, hreq]
  · intro jd rid s cn c rep ar hreq hne hall
    have h1 : (all_tool_calls ar).isEmpty = false := by
      cases hx : all_tool_calls ar
      · exact absurd hx hne
      · rfl
    have h2 : (all_tool_calls ar).all (fun tc => tc.tool_error) = true := by
      rw [List.all_eq_true]
      exact hall
    constructor
    · unfold attemptOnce
      simp [h1, h2, hreq]
    · unfold attemptOnce
      simp [h1, h2, hreq]
  · intro s h
    unfold reportedSampleIdx
    rw [if_pos h]
  · intro s h
    unfold reportedSampleIdx
    rw [if_neg (by simp [h])]

/-- Witness for C10 at concrete inputs: an all-digit id is reported as its
decimal value. -/
theorem c10_reported_sample_idx_witness :
    py_isdigit "123" = true ∧ reportedSampleIdx "123" = py_int "123" :=
  ⟨by decide, c10_reported_sample_idx.2.2.1 "123" (by decide)⟩

/-! ### Claim C7 -/

/-- C7: every resolving trial executes the lock-protected progress block
exactly once, whether it resolves in success or terminal failure; and for a
fully successful 2 samples × 2 conditions × 2 repetitions run, the grid has
8 trials and the 8 resolutions notify progress exactly 8 times with done
values 1 through 8 and total 8 each time. -/
theorem c7_progress_exactly_once :
    (∀ (cfg : RetryConfig) (env : TripleEnv) (rid : String) (t : Triple),
      1 ≤ cfg.max_attempts →
      progressCount (runTriple cfg env rid t).1 = 1) ∧
    (gridTriples [sampleNum, sampleAbc]
      [("c1", condPlain), ("c2", condPlain)] 2).length = 8 ∧
    progressEmissions 8 0 8 =
      [(1, 8), (2, 8), (3, 8), (4, 8), (5, 8), (6, 8), (7, 8), (8, 8)] := by
  refine ⟨?_, by decide, by decide⟩
  intro cfg env rid t hmax
  unfold runTriple
  exact progressCount_runTripleAux cfg env rid t cfg.max_attempts 1
    cfg.initial_backoff_seconds (by omega) hmax

/-- Witness for C7 at concrete inputs: a first-attempt success and a
retries-exhausted failure each execute the progress block exactly once. -/
theorem c7_progress_exactly_once_witness :
    progressCount (runTriple cfg234 envOk "rid" tripleNumPlain).1 = 1 ∧
    progressCount (runTriple cfg234 envFatal "rid" tripleNumPlain).1 = 1 :=
  ⟨c7_progress_exactly_once.1 cfg234 envOk "rid" tripleNumPlain (by decide),
   c7_progress_exactly_once.1 cfg234 envFatal "rid" tripleNumPlain (by decide)⟩

/-! ### Claim C9 -/

theorem countP_set_le {α : Type} (p : α → Bool) :
    ∀ (l : List α) (i : Nat) (a : α),
      (l.set i a).countP p ≤ l.countP p + 1 := by
  intro l
  induction l with
  | nil => intro i a; simp
  | cons x xs ih =>
    intro i a
    cases i with
    | zero =>
      simp only [List.set_cons_zero, List.countP_cons]
      split <;> split <;> omega
    | succ i =>
      simp only [List.set_cons_succ, List.countP_cons]
      have := ih i a
      split <;> omega

theorem countP_set_notP {α : Type} (p : α → Bool) (a : α) (ha : p a = false) :
    ∀ (l : List α) (i : Nat), (l.set i a).countP p ≤ l.countP p := by
  intro l
  induction l with
  | nil => intro i; simp
  | cons x xs ih =>
    intro i
    cases i with
    | zero =>
      rw [List.set_cons_zero, List.countP_cons, List.countP_cons, ha]
      have h0 : (if (false = true) then 1 else 0) = 0 := rfl
      rw [h0]
      split <;> omega
    | succ i =>
      simp only [List.set_cons_succ, List.countP_cons]
      have := ih i
      split <;> omega

theorem countActive_replicate_pending (n : Nat) :
    countActive (List.replicate n Phase.pending) = 0 := by
  induction n with
  | zero => rfl
  | succ n ih =>
    rw [List.replicate_succ]
    unfold countActive at ih ⊢
    rw [List.countP_cons]
    simp [ih]

/-- C9: in every state reachable by any interleaving of trial-task steps, at
most `maxConcurrent` trials hold the concurrency gate simultaneously, and a
trial sleeping in retry backoff does not hold the gate (the backoff sleep
happens outside the semaphore block). -/
theorem c9_concurrency_bound (m n : Nat) (s : List Phase)
    (h : SchedReachable m n s) :
    countActive s ≤ m ∧
    ∀ (i : Nat) (hi : i < s.length), s.get ⟨i, hi⟩ = Phase.sleeping →
      s.get ⟨i, hi⟩ ≠ Phase.active := by
  constructor
  · induction h with
    | init => simp [countActive_replicate_pending]
    | @step s₁ s₂ hs hstep ih =>
      cases hstep with
      | acquire i hlen hp hm =>
        have h1 := countP_set_le (fun p => decide (p = Phase.active)) s₁ i
          Phase.active
        unfold countActive at hm ih ⊢
        omega
      | toSleep i hlen hp =>
        have h1 := countP_set_notP (fun p => decide (p = Phase.active))
          Phase.sleeping (by decide) s₁ i
        unfold countActive at ih ⊢
        omega
      | resolve i hlen hp =>
        have h1 := countP_set_notP (fun p => decide (p = Phase.active))
          Phase.resolved (by decide) s₁ i
        unfold countActive at ih ⊢
        omega
  · intro i hi hsleep
    rw [hsleep]
    intro hcontra
    exact absurd hcontra (by decide)

/-- Witness for C9 at a concrete input: three trials under `maxConcurrent = 2`
after the steps acquire(0), acquire(1), toSleep(0). -/
theorem c9_concurrency_bound_witness :
    countActive
      ((((List.replicate 3 Phase.pending).set 0 Phase.active).set 1
        Phase.active).set 0 Phase.sleeping) ≤ 2 ∧
    ∀ (i : Nat)
      (hi : i < ((((List.replicate 3 Phase.pending).set 0 Phase.active).set 1
        Phase.active).set 0 Phase.sleeping).length),
      ((((List.replicate 3 Phase.pending).set 0 Phase.active).set 1
        Phase.active).set 0 Phase.sleeping).get ⟨i, hi⟩ = Phase.sleeping →
      ((((List.replicate 3 Phase.pending).set 0 Phase.active).set 1
        Phase.active).set 0 Phase.sleeping).get ⟨i, hi⟩ ≠ Phase.active := by
  have h0 : SchedReachable 2 3 (List.replicate 3 Phase.pending) :=
    SchedReachable.init
  have h1 := h0.step
    (SchedStep.acquire (List.replicate 3 Phase.pending) 0 (by decide)
      (Or.inl (by decide)) (by decide))
  have h2 := h1.step
    (SchedStep.acquire ((List.replicate 3 Phase.pending).set 0 Phase.active)
      1 (by decide) (Or.inl (by decide)) (by decide))
  have h3 := h2.step
    (SchedStep.toSleep (((List.replicate 3 Phase.pending).set 0
        Phase.active).set 1 Phase.active)
      0 (by decide) (by decide))
  exact c9_concurrency_bound 2 3 _ h3

/-! ### Claim C6 -/

/-- C6: whenever any trial terminates with an unrecoverable failure, the run
raises exactly one structured failure to the caller — a single `KEvalError`
drawn from the trials' terminal failures (`eg.exceptions[0]`), never an
aggregate — whatever order the concurrently failing trials' errors were
collected in. -/
theorem c6_single_failure (cfg : RetryConfig) (envOf : Triple → TripleEnv)
    (rid dsha cname : String) (trials : List Triple)
    (failOrder : List KEvalError)
    (hperm : failOrder.Perm (terminalFailures cfg envOf rid trials))
    (t : Triple) (e₀ : KEvalError) (ht : t ∈ trials)
    (hfail : tripleOutcome cfg envOf rid t = TripleOutcome.failure e₀)
    (collectedRuns : List EvaluationRun) :
    ∃ e : KEvalError,
      run_model rid dsha cname collectedRuns failOrder = Except.error e ∧
      e ∈ terminalFailures cfg envOf rid trials := by
  have hmem : e₀ ∈ terminalFailures cfg envOf rid trials := by
    unfold terminalFailures
    apply List.mem_filterMap.mpr
    exact ⟨t, ht, by rw [hfail]⟩
  cases hfo : failOrder with
  | nil =>
    rw [hfo] at hperm
    rw [← hperm.mem_iff] at hmem
    exact absurd hmem (List.not_mem_nil e₀)
  | cons e rest =>
    refine ⟨e, rfl, ?_⟩
    rw [hfo] at hperm
    exact hperm.mem_iff.mp (List.mem_cons_self e rest)

/-- Witness for C6 at concrete inputs: a single trial whose agent fails
non-retriably. -/
theorem c6_single_failure_witness :
    ∃ e : KEvalError,
      run_model "rid" "sha" "cfg" []
        (terminalFailures cfg234 (fun _ => envFatal) "rid" [tripleNumPlain]) =
        Except.error e ∧
      e ∈ terminalFailures cfg234 (fun _ => envFatal) "rid" [tripleNumPlain] :=
  c6_single_failure cfg234 (fun _ => envFatal) "rid" "sha" "cfg"
    [tripleNumPlain] _ (List.Perm.refl _) tripleNumPlain
    (KEvalError.capability "fatal" false) (List.mem_singleton.mpr rfl)
    (by decide) []

/-! ### Helper lemmas for C1 -/

theorem runTriple_first_ok {cfg : RetryConfig} {env : TripleEnv}
    {rid : String} {t : Triple} {r : EvaluationRun}
    (hmax : 1 ≤ cfg.max_attempts)
    (h : attemptResult env rid t 1 = Except.ok r) :
    (runTriple cfg env rid t).2 = TripleOutcome.success r := by
  unfold runTriple
  cases hm : cfg.max_attempts with
  | zero => omega
  | succ fuel => rw [runTripleAux_ok h]

/-- Under all-first-attempt success, the collected results stand in bijection
with the grid: their identity tuples are exactly the grid's identities, in
grid order. -/
theorem successRuns_map_identity (cfg : RetryConfig)
    (envOf : Triple → TripleEnv) (rid : String)
    (hmax : 1 ≤ cfg.max_attempts) :
    ∀ trials : List Triple,
      (∀ t ∈ trials, ∃ r, attemptResult (envOf t) rid t 1 = Except.ok r) →
      (successRuns cfg envOf rid trials).map identityOf =
        trials.map identityOfTriple := by
  intro trials
  induction trials with
  | nil => intro _; rfl
  | cons t ts ih =>
    intro h
    obtain ⟨r, hr⟩ := h t (List.mem_cons_self t ts)
    have hout : tripleOutcome cfg envOf rid t = TripleOutcome.success r :=
      runTriple_first_ok hmax hr
    have hident := attemptOnce_success_identity hr
    unfold successRuns at ih ⊢
    rw [List.filterMap_cons, hout]
    simp only [List.map_cons]
    rw [ih (fun t' ht' => h t' (List.mem_cons_of_mem t ht'))]
    unfold identityOf identityOfTriple
    rw [hident.2.1, hident.2.2.1, hident.2.2.2]

/-- Under all-first-attempt success no trial resolves in terminal failure,
so the TaskGroup collects no exception. -/
theorem terminalFailures_nil_of_success (cfg : RetryConfig)
    (envOf : Triple → TripleEnv) (rid : String)
    (hmax : 1 ≤ cfg.max_attempts) :
    ∀ trials : List Triple,
      (∀ t ∈ trials, ∃ r, attemptResult (envOf t) rid t 1 = Except.ok r) →
      terminalFailures cfg envOf rid trials = [] := by
  intro trials
  induction trials with
  | nil => intro _; rfl
  | cons t ts ih =>
    intro h
    obtain ⟨r, hr⟩ := h t (List.mem_cons_self t ts)
    have hout : tripleOutcome cfg envOf rid t = TripleOutcome.success r :=
      runTriple_first_ok hmax hr
    unfold terminalFailures at ih ⊢
    rw [List.filterMap_cons, hout]
    exact ih (fun t' ht' => h t' (List.mem_cons_of_mem t ht'))

theorem gridRow_length (s : Sample)
    (conds : List (String × ConditionConfig)) (R : Nat) :
    (conds.flatMap fun c => (List.range R).map fun k =>
      ({ sample := s, condition_name := c.1, condition := c.2
         repetition_index := k } : Triple)).length = conds.length * R := by
  induction conds with
  | nil => simp
  | cons c cs ihc =>
    rw [List.flatMap_cons, List.length_append, ihc]
    simp only [List.length_map, List.length_range, List.length_cons]
    ring

theorem gridTriples_length (samples : List Sample)
    (conds : List (String × ConditionConfig)) (R : Nat) :
    (gridTriples samples conds R).length =
      samples.length * conds.length * R := by
  induction samples with
  | nil => simp [gridTriples]
  | cons s ss ih =>
    unfold gridTriples at ih ⊢
    rw [List.flatMap_cons, List.length_append, ih, gridRow_length]
    simp only [List.length_cons]
    ring

/-- The identity tuples of the grid, in grid order. -/
def gridIdents (samples : List Sample)
    (conds : List (String × ConditionConfig)) (R : Nat) :
    List (String × String × Nat) :=
  samples.flatMap fun s =>
    conds.flatMap fun c =>
      (List.range R).map fun k => (s.sample_idx, c.1, k)

theorem gridTriples_map_identity (samples : List Sample)
    (conds : List (String × ConditionConfig)) (R : Nat) :
    (gridTriples samples conds R).map identityOfTriple =
      gridIdents samples conds R := by
  unfold gridTriples gridIdents
  simp only [List.map_flatMap, List.map_map]
  rfl

theorem gridIdents_nodup (samples : List Sample)
    (conds : List (String × ConditionConfig)) (R : Nat)
    (hids : (samples.map Sample.sample_idx).Nodup)
    (hnames : (conds.map Prod.fst).Nodup) :
    (gridIdents samples conds R).Nodup := by
  unfold gridIdents
  rw [List.nodup_flatMap]
  constructor
  · intro s _
    rw [List.nodup_flatMap]
    constructor
    · intro c _
      apply List.Nodup.map
      · intro a b hab
        simpa using hab
      · exact List.nodup_range R
    · have hpw : conds.Pairwise (fun c₁ c₂ => c₁.1 ≠ c₂.1) :=
        List.pairwise_map.mp hnames
      apply hpw.imp
      intro c₁ c₂ hne x hx₁ hx₂
      simp only [List.mem_map, List.mem_range] at hx₁ hx₂
      obtain ⟨k₁, _, rfl⟩ := hx₁
      obtain ⟨k₂, _, hk⟩ := hx₂
      exact hne (congrArg (fun y => y.2.1) hk).symm
  · have hpw : samples.Pairwise
        (fun s₁ s₂ => s₁.sample_idx ≠ s₂.sample_idx) :=
      List.pairwise_map.mp hids
    apply hpw.imp
    intro s₁ s₂ hne x hx₁ hx₂
    simp only [List.mem_flatMap, List.mem_map, List.mem_range] at hx₁ hx₂
    obtain ⟨c₁, _, k₁, _, rfl⟩ := hx₁
    obtain ⟨c₂, _, k₂, _, hk⟩ := hx₂
    exact hne (congrArg Prod.fst hk).symm

/-! ### Claim C1 -/

/-- C1: for every run in which all trials succeed on their first attempt
(and sample ids and condition names are unique, as the dataset/config
contract guarantees), no failure is collected and `run` returns a
`RunSummary` whose `runs` list — the collected results, in whatever order
concurrency produced them, sorted by the identity key — has exactly
`N * C * R` elements, is sorted ascending by the identity tuple
`(sampleId, conditionName, repetitionIndex)`, and contains no two elements
with the same identity tuple. -/
theorem c1_run_summary (cfg : RetryConfig) (envOf : Triple → TripleEnv)
    (rid dsha cname : String) (samples : List Sample)
    (conds : List (String × ConditionConfig)) (R : Nat)
    (hmax : 1 ≤ cfg.max_attempts)
    (hids : (samples.map Sample.sample_idx).Nodup)
    (hnames : (conds.map Prod.fst).Nodup)
    (hfirst : ∀ t ∈ gridTriples samples conds R,
      ∃ r, attemptResult (envOf t) rid t 1 = Except.ok r)
    (collected : List EvaluationRun)
    (hperm : collected.Perm
      (successRuns cfg envOf rid (gridTriples samples conds R))) :
    terminalFailures cfg envOf rid (gridTriples samples conds R) = [] ∧
    ∃ summary : RunSummary,
      run_model rid dsha cname collected [] = Except.ok summary ∧
      summary.runs = sortRuns collected ∧
      summary.runs.length = samples.length * conds.length * R ∧
      List.Sorted runLe summary.runs ∧
      (summary.runs.map identityOf).Nodup := by
  have hnil := terminalFailures_nil_of_success cfg envOf rid hmax _ hfirst
  have hmapid := successRuns_map_identity cfg envOf rid hmax _ hfirst
  refine ⟨hnil, ⟨_, rfl, rfl, ?_, ?_, ?_⟩⟩
  · have h1 : (sortRuns collected).length = collected.length :=
      (List.perm_insertionSort runLe collected).length_eq
    have h2 : collected.length =
        (successRuns cfg envOf rid (gridTriples samples conds R)).length :=
      hperm.length_eq
    have h3 : (successRuns cfg envOf rid (gridTriples samples conds R)).length
        = (gridTriples samples conds R).length := by
      have := congrArg List.length hmapid
      simpa using this
    simp only [RunSummary.runs]
    rw [h1, h2, h3, gridTriples_length]
  · exact List.sorted_insertionSort runLe collected
  · have hperm2 : (sortRuns collected).Perm
        (successRuns cfg envOf rid (gridTriples samples conds R)) :=
      (List.perm_insertionSort runLe collected).trans hperm
    have hperm3 : ((sortRuns collected).map identityOf).Perm
        (gridIdents samples conds R) := by
      have := hperm2.map identityOf
      rw [hmapid, gridTriples_map_identity] at this
      exact this
    rw [hperm3.nodup_iff]
    exact gridIdents_nodup samples conds R hids hnames

/-- Witness for C1 at concrete inputs: one sample, one condition, one
repetition, all succeeding on the first attempt, results collected in grid
order. -/
theorem c1_run_summary_witness :
    terminalFailures cfg234 (fun _ => envOk) "rid"
      (gridTriples [sampleNum] [("baseline", condPlain)] 1) = [] ∧
    ∃ summary : RunSummary,
      run_model "rid" "sha" "cfg"
        (successRuns cfg234 (fun _ => envOk) "rid"
          (gridTriples [sampleNum] [("baseline", condPlain)] 1)) [] =
        Except.ok summary ∧
      summary.runs = sortRuns
        (successRuns cfg234 (fun _ => envOk) "rid"
          (gridTriples [sampleNum] [("baseline", condPlain)] 1)) ∧
      summary.runs.length =
        [sampleNum].length * [("baseline", condPlain)].length * 1 ∧
      List.Sorted runLe summary.runs ∧
      (summary.runs.map identityOf).Nodup :=
  c1_run_summary cfg234 (fun _ => envOk) "rid" "sha" "cfg" [sampleNum]
    [("baseline", condPlain)] 1 (by decide) (by decide) (by decide)
    (fun t ht => by
      rw [show gridTriples [sampleNum] [("baseline", condPlain)] 1 =
        [tripleNumPlain] from rfl] at ht
      rw [List.mem_singleton.mp ht]
      exact ⟨_, rfl⟩)
    _ (List.Perm.refl _)

/-! ### Fixtures for C8 -/

/-- Judge result scoring 3 on every metric, flagging two claims. -/
def judge3 : JudgeResult :=
  { factual_adherence := 3, factual_adherence_reasoning := "r"
    completeness := 3, completeness_reasoning := "r"
    helpfulness_and_clarity := 3, helpfulness_and_clarity_reasoning := "r"
    unverified_claims := ["claim-a", "claim-b"] }

/-- Judge result scoring 5 on every metric, flagging two claims, one shared
with `judge3`. -/
def judge5 : JudgeResult :=
  { factual_adherence := 5, factual_adherence_reasoning := "r"
    completeness := 5, completeness_reasoning := "r"
    helpfulness_and_clarity := 5, helpfulness_and_clarity_reasoning := "r"
    unverified_claims := ["claim-b", "claim-c"] }

/-- Trial result: sample 7, condition c1, repetition 0, scores 3. -/
def runG1 : EvaluationRun :=
  { run_id := "r", sample := sampleNum, condition := "c1"
    repetition_index := 0, agent_result := agentNoTools
    judge_result := judge3 }

/-- Trial result: sample 7, condition c1, repetition 1, scores 5. -/
def runG2 : EvaluationRun :=
  { run_id := "r", sample := sampleNum, condition := "c1"
    repetition_index := 1, agent_result := agentNoTools
    judge_result := judge5 }

/-- Trial result: sample 7, condition c2, repetition 0, scores 4. -/
def runH1 : EvaluationRun :=
  { run_id := "r", sample := sampleNum, condition := "c2"
    repetition_index := 0, agent_result := agentNoTools
    judge_result := judgeOk }

/-! ### Properties of first-occurrence deduplication -/

theorem mem_dedupFirstAux {α : Type} [DecidableEq α] (x : α) :
    ∀ (l seen : List α),
      x ∈ dedupFirstAux seen l ↔ x ∈ l ∧ x ∉ seen := by
  intro l
  induction l with
  | nil => intro seen; simp [dedupFirstAux]
  | cons c cs ih =>
    intro seen
    unfold dedupFirstAux
    by_cases hc : c ∈ seen
    · rw [if_pos hc, ih]
      constructor
      · rintro ⟨h1, h2⟩
        exact ⟨List.mem_cons_of_mem c h1, h2⟩
      · rintro ⟨h1, h2⟩
        rcases List.mem_cons.mp h1 with rfl | h1
        · exact absurd hc h2
        · exact ⟨h1, h2⟩
    · rw [if_neg hc]
      constructor
      · intro h
        rcases List.mem_cons.mp h with rfl | h
        · exact ⟨List.mem_cons_self x cs, hc⟩
        · rw [ih] at h
          refine ⟨List.mem_cons_of_mem c h.1, ?_⟩
          intro hseen
          exact h.2 (List.mem_cons_of_mem c hseen)
      · rintro ⟨h1, h2⟩
        rcases List.mem_cons.mp h1 with rfl | h1
        · exact List.mem_cons_self x _
        · by_cases hxc : x = c
          · rw [hxc]
            exact List.mem_cons_self c _
          · apply List.mem_cons_of_mem
            rw [ih]
            refine ⟨h1, ?_⟩
            intro hs
            rcases List.mem_cons.mp hs with h' | h'
            · exact hxc h'
            · exact h2 h'

theorem dedupFirstAux_nodup {α : Type} [DecidableEq α] :
    ∀ (l seen : List α), (dedupFirstAux seen l).Nodup := by
  intro l
  induction l with
  | nil => intro seen; simp [dedupFirstAux]
  | cons c cs ih =>
    intro seen
    unfold dedupFirstAux
    by_cases hc : c ∈ seen
    · rw [if_pos hc]
      exact ih seen
    · rw [if_neg hc]
      refine List.nodup_cons.mpr ⟨?_, ih (c :: seen)⟩
      intro hmem
      rw [mem_dedupFirstAux] at hmem
      exact hmem.2 (List.mem_cons_self c seen)

theorem dedupFirst_mem {α : Type} [DecidableEq α] (x : α) (l : List α) :
    x ∈ dedupFirst l ↔ x ∈ l := by
  unfold dedupFirst
  rw [mem_dedupFirstAux]
  simp

theorem dedupFirst_nodup {α : Type} [DecidableEq α] (l : List α) :
    (dedupFirst l).Nodup :=
  dedupFirstAux_nodup l []

/-- Every aggregated group's unverified-claims list is duplicate-free and
contains exactly the claims flagged by the group's runs (the runs of `runs`
whose key matches the group's). -/
theorem aggregate_claims_spec (runs : List EvaluationRun)
    (res : AggregatedResult) (h : res ∈ aggregate runs) :
    res.unverified_claims.Nodup ∧
    ∀ c, c ∈ res.unverified_claims ↔
      ∃ run ∈ runs, keyOf run = (res.sample.sample_idx, res.condition) ∧
        c ∈ run.judge_result.unverified_claims := by
  unfold aggregate at h
  obtain ⟨k, _, hfk⟩ := List.mem_filterMap.mp h
  cases hfil : runs.filter (fun r => keyOf r = k) with
  | nil =>
    rw [hfil] at hfk
    exact absurd hfk (by simp)
  | cons r0 rs =>
    rw [hfil] at hfk
    simp only [Option.some.injEq] at hfk
    subst hfk
    have hr0 : r0 ∈ runs.filter (fun r => keyOf r = k) := by
      rw [hfil]
      exact List.mem_cons_self r0 rs
    have hr0k : keyOf r0 = k := by
      have h2 := (List.mem_filter.mp hr0).2
      exact of_decide_eq_true h2
    have h1 : r0.sample.sample_idx = k.1 := congrArg Prod.fst hr0k
    have hkeyeq : (r0.sample.sample_idx, k.2) = k := by
      rw [h1]
    refine ⟨dedupFirst_nodup _, ?_⟩
    intro c
    show c ∈ dedupFirst ((List.insertionSort repLe (r0 :: rs)).flatMap
      fun r => r.judge_result.unverified_claims) ↔ _
    rw [dedupFirst_mem, List.mem_flatMap]
    constructor
    · rintro ⟨r, hr, hcr⟩
      have hr' : r ∈ r0 :: rs :=
        (List.perm_insertionSort repLe (r0 :: rs)).mem_iff.mp hr
      rw [← hfil] at hr'
      have hmf := List.mem_filter.mp hr'
      refine ⟨r, hmf.1, ?_, hcr⟩
      exact (of_decide_eq_true hmf.2).trans hkeyeq.symm
    · rintro ⟨r, hr, hrk, hcr⟩
      refine ⟨r, ?_, hcr⟩
      apply (List.perm_insertionSort repLe (r0 :: rs)).mem_iff.mpr
      rw [← hfil]
      apply List.mem_filter.mpr
      refine ⟨hr, decide_eq_true ?_⟩
      exact hrk.trans hkeyeq

/-! ### Claim C8 -/

/-- C8: the aggregator groups trial results by (sampleId, conditionName);
each group's unverified-claims output is the order-preserving de-duplicated
union of the claims flagged across the group's trials (duplicate-free, with
exactly the group's claims as members), and each metric gets the arithmetic
mean of the group's scores and the sample standard deviation — 0.0 for
fewer than two values; concretely, scores `[3, 5]` yield mean `4` and
standard deviation `√2`, which lies strictly between `1.4142` and `1.4143`,
while a single-value group gets standard deviation `0`. -/
theorem c8_aggregator_stats :
    (∀ (runs : List EvaluationRun) (res : AggregatedResult),
      res ∈ aggregate runs →
      res.unverified_claims.Nodup ∧
      ∀ c, c ∈ res.unverified_claims ↔
        ∃ run ∈ runs, keyOf run = (res.sample.sample_idx, res.condition) ∧
          c ∈ run.judge_result.unverified_claims) ∧
    ∃ resG resH : AggregatedResult,
      aggregate [runG1, runG2, runH1] = [resG, resH] ∧
      resG.sample = sampleNum ∧ resG.condition = "c1" ∧
      resG.factual_adherence_mean = 4 ∧
      resG.factual_adherence_stddev_sq = 2 ∧
      (1.4142 : ℝ) < Real.sqrt (resG.factual_adherence_stddev_sq : ℝ) ∧
      Real.sqrt (resG.factual_adherence_stddev_sq : ℝ) < (1.4143 : ℝ) ∧
      resG.unverified_claims = ["claim-a", "claim-b", "claim-c"] ∧
      resH.condition = "c2" ∧
      resH.factual_adherence_mean = 4 ∧
      resH.factual_adherence_stddev_sq = 0 ∧
      Real.sqrt (resH.factual_adherence_stddev_sq : ℝ) = 0 := by
  refine ⟨aggregate_claims_spec, ?_⟩
  refine ⟨mkAggResult sampleNum "c1" [runG1, runG2],
    mkAggResult sampleNum "c2" [runH1], rfl, rfl, rfl, ?_, ?_, ?_, ?_, rfl,
    rfl, ?_, ?_, ?_⟩
  · show meanQ [3, 5] = 4
    norm_num [meanQ]
  · show stddevSq [3, 5] = 2
    norm_num [stddevSq, svarQ, meanQ]
  · rw [show (mkAggResult sampleNum "c1"
      [runG1, runG2]).factual_adherence_stddev_sq = stddevSq [3, 5] from rfl]
    rw [show stddevSq [3, 5] = 2 by norm_num [stddevSq, svarQ, meanQ]]
    rw [Real.lt_sqrt (by norm_num)]
    norm_num
  · rw [show (mkAggResult sampleNum "c1"
      [runG1, runG2]).factual_adherence_stddev_sq = stddevSq [3, 5] from rfl]
    rw [show stddevSq [3, 5] = 2 by norm_num [stddevSq, svarQ, meanQ]]
    rw [Real.sqrt_lt' (by norm_num)]
    norm_num
  · show meanQ [4] = 4
    norm_num [meanQ]
  · show stddevSq [4] = 0
    norm_num [stddevSq]
  · rw [show (mkAggResult sampleNum "c2"
      [runH1]).factual_adherence_stddev_sq = stddevSq [4] from rfl]
    rw [show stddevSq [4] = 0 by norm_num [stddevSq]]
    norm_num [Real.sqrt_zero]

/-- Witness for C8 at a concrete input: the aggregate of the two-run group,
with the membership hypothesis discharged by evaluation. -/
theorem c8_aggregator_stats_witness :
    (mkAggResult sampleNum "c1" [runG1, runG2]).unverified_claims.Nodup :=
  (c8_aggregator_stats.1 [runG1, runG2]
    (mkAggResult sampleNum "c1" [runG1, runG2])
    (by rw [show aggregate [runG1, runG2] =
        [mkAggResult sampleNum "c1" [runG1, runG2]] from rfl]
        exact List.mem_singleton.mpr rfl)).1

end KEval
